import Mathlib

/-!
# Verification of the cardiac-risk prediction serving path

Shallow embedding of the serving backend (`ml-backend/main.py`) and the
train-time feature engineering (`ml-backend/data_preparation.py`).
Python floats are modelled as exact rationals (`ℚ`); the standard deviation,
which is irrational in general, lives in `ℝ`.  Fallible paths are modelled
with `Option` / explicit outcome types.
-/

namespace CardiacInsight

/-- `PatientData` (main.py 223-237): the 13 scalar clinical measurements.
All fields are numbers in one feature array at serve time, so all are `ℚ`. -/
structure PatientData where
  age : ℚ
  sex : ℚ
  cp : ℚ
  trestbps : ℚ
  chol : ℚ
  fbs : ℚ
  restecg : ℚ
  thalach : ℚ
  exang : ℚ
  oldpeak : ℚ
  slope : ℚ
  ca : ℚ
  thal : ℚ
deriving Repr, DecidableEq

/-- The declared field ranges of `PatientData` (main.py 225-237): `ge`/`le`
bounds, with `int`-typed fields required to be integral. -/
def PatientData.valid (p : PatientData) : Prop :=
  (0 ≤ p.age ∧ p.age ≤ 120) ∧
  (p.sex = 0 ∨ p.sex = 1) ∧
  (p.cp.den = 1 ∧ 0 ≤ p.cp ∧ p.cp ≤ 3) ∧
  (0 ≤ p.trestbps ∧ p.trestbps ≤ 300) ∧
  (0 ≤ p.chol ∧ p.chol ≤ 600) ∧
  (p.fbs = 0 ∨ p.fbs = 1) ∧
  (p.restecg.den = 1 ∧ 0 ≤ p.restecg ∧ p.restecg ≤ 2) ∧
  (0 ≤ p.thalach ∧ p.thalach ≤ 250) ∧
  (p.exang = 0 ∨ p.exang = 1) ∧
  (0 ≤ p.oldpeak ∧ p.oldpeak ≤ 10) ∧
  (p.slope.den = 1 ∧ 0 ≤ p.slope ∧ p.slope ≤ 2) ∧
  (p.ca.den = 1 ∧ 0 ≤ p.ca ∧ p.ca ≤ 4) ∧
  (p.thal.den = 1 ∧ 0 ≤ p.thal ∧ p.thal ≤ 3)

instance (p : PatientData) : Decidable p.valid := by
  unfold PatientData.valid; infer_instance

/-- Serve-time age bucket (main.py 309):
`0 if age < 40 else 1 if age < 50 else 2 if age < 60 else 3`. -/
def serve_age_group (age : ℚ) : ℚ :=
  if age < 40 then 0 else if age < 50 then 1 else if age < 60 then 2 else 3

/-- `chol_risk = 1 if chol > 240 else 0` (main.py 310, data_preparation.py 147). -/
def chol_risk (chol : ℚ) : ℚ := if 240 < chol then 1 else 0

/-- `bp_risk = 1 if trestbps > 140 else 0` (main.py 311, data_preparation.py 150). -/
def bp_risk (trestbps : ℚ) : ℚ := if 140 < trestbps then 1 else 0

/-- Serve-time heart-rate reserve (main.py 312-313):
`thalach / (220 - age) if 220 - age > 0 else 0`, with no clamping. -/
def serve_hr_reserve (age thalach : ℚ) : ℚ :=
  if 0 < 220 - age then thalach / (220 - age) else 0

/-- `composite_risk = (age/100)*0.3 + (trestbps/200)*0.3 + (chol/300)*0.4`
(main.py 314, data_preparation.py 163-167). -/
def composite_risk (age trestbps chol : ℚ) : ℚ :=
  (age / 100) * (3 / 10) + (trestbps / 200) * (3 / 10) + (chol / 300) * (2 / 5)

/-- The 6 serve-time engineered features in the order appended at main.py 318:
age_group, chol_risk, bp_risk, hr_reserve, composite_risk, sex_age_interaction. -/
def serve_engineered (p : PatientData) : List ℚ :=
  [serve_age_group p.age, chol_risk p.chol, bp_risk p.trestbps,
   serve_hr_reserve p.age p.thalach, composite_risk p.age p.trestbps p.chol,
   p.sex * p.age]

/-- The 13 raw features in the canonical order of main.py 292-306. -/
def raw_features (p : PatientData) : List ℚ :=
  [p.age, p.sex, p.cp, p.trestbps, p.chol, p.fbs, p.restecg,
   p.thalach, p.exang, p.oldpeak, p.slope, p.ca, p.thal]

/-- Fitted normalization parameters: a per-feature (mean, scale) pair
(spec §4.1; the pickled `preprocessor['scaler']` of main.py 323). -/
structure FittedScaler where
  mean : List ℚ
  scale : List ℚ
deriving Repr, DecidableEq

/-- `StandardScaler.transform`: elementwise `(x - mean_i) / scale_i`. -/
def FittedScaler.transform (s : FittedScaler) (features : List ℚ) : List ℚ :=
  (features.zip (s.mean.zip s.scale)).map (fun x => (x.1 - x.2.1) / x.2.2)

/-- `preprocess_input` (main.py 286-325): raw features, then the engineered
features appended, then scaling applied only `if preprocessor:` is present —
when absent the unscaled vector is returned with no error. -/
def preprocess_input (preprocessor : Option FittedScaler) (p : PatientData) : List ℚ :=
  let features := raw_features p ++ serve_engineered p
  match preprocessor with
  | some s => s.transform features
  | none => features

/-- Train-time age bucket (data_preparation.py 142-144):
`pd.cut(age, bins=[0,40,50,60,100], labels=[0,1,2,3])` — intervals are
left-open right-closed `(0,40], (40,50], (50,60], (60,100]`; ages outside
`(0,100]` fall in no bin and become missing (`none`). -/
def train_age_group (age : ℚ) : Option ℚ :=
  if age ≤ 0 then none
  else if age ≤ 40 then some 0
  else if age ≤ 50 then some 1
  else if age ≤ 60 then some 2
  else if age ≤ 100 then some 3
  else none

/-- Train-time heart-rate reserve (data_preparation.py 153-155):
`(thalach / (220 - age)).clip(0, 1)` — clamped into `[0, 1]`. -/
def train_hr_reserve (age thalach : ℚ) : ℚ :=
  min 1 (max 0 (thalach / (220 - age)))

/-- The engineered features of `engineer_features` (data_preparation.py 127-175)
evaluated on one row, in the column order they are added (hdl is absent from
the generated data, so chol_hdl_ratio is never created). -/
def train_engineered (p : PatientData) : List (Option ℚ) :=
  [train_age_group p.age, some (chol_risk p.chol), some (bp_risk p.trestbps),
   some (train_hr_reserve p.age p.thalach),
   some (composite_risk p.age p.trestbps p.chol),
   some (p.sex * p.age)]

/-- `get_risk_level` (main.py 327-336). -/
def get_risk_level (risk_score : ℚ) : String :=
  if risk_score < 30 then "low"
  else if risk_score < 50 then "medium"
  else if risk_score < 70 then "high"
  else "very-high"

/-- `ensemble_weights.get(model_name, 0.33)` (main.py 386, 389). -/
def weight_get (weights : List (String × ℚ)) (m : String) : ℚ :=
  (weights.lookup m).getD (33 / 100)

/-- The default weight triple (main.py 186-190 and 194-198). -/
def default_weights : List (String × ℚ) :=
  [("xgboost", 2 / 5), ("random_forest", 7 / 20), ("neural_network", 1 / 4)]

/-- Ensemble combination (main.py 382-394): per-model scores are percentages;
`ensemble_pred = Σ (pred/100)·w(m)`, divided by `Σ w(m)` only when that total
is positive; `0.5` when no model produced a score. -/
def ensemble_pred (model_predictions weights : List (String × ℚ)) : ℚ :=
  match model_predictions with
  | [] => 1 / 2
  | _ :: _ =>
    let s := (model_predictions.map (fun mp => mp.2 / 100 * weight_get weights mp.1)).sum
    let total_weight := (model_predictions.map (fun mp => weight_get weights mp.1)).sum
    if 0 < total_weight then s / total_weight else s

/-- `risk_score = ensemble_pred * 100` (main.py 396). -/
def risk_score_of (model_predictions weights : List (String × ℚ)) : ℚ :=
  ensemble_pred model_predictions weights * 100

/-- Arithmetic mean, as computed by `np.std` internally. -/
def np_mean (l : List ℚ) : ℚ := l.sum / l.length

/-- Population variance: `mean((x - mean)^2)` (ddof = 0, the `np.std` default). -/
def np_var (l : List ℚ) : ℚ := (l.map (fun x => (x - np_mean l) ^ 2)).sum / l.length

/-- `np.std`: square root of the population variance (main.py 401). -/
noncomputable def np_std (l : List ℚ) : ℝ := Real.sqrt ((np_var l : ℚ) : ℝ)

/-- `confidence = max(0, min(100, 100 - std_dev))` (main.py 402), the branch
taken when more than one model contributed. -/
noncomputable def confidence_of (preds : List ℚ) : ℝ :=
  max 0 (min 100 (100 - np_std preds))

/-- Python `round(x, 2)` on the rational model of floats: round half to even
at the second decimal. -/
def py_round_half_even {α : Type} [LinearOrderedField α] [FloorRing α] (x : α) : ℤ :=
  let f := ⌊x⌋
  if x - f < 1 / 2 then f
  else if (1 : α) / 2 < x - f then f + 1
  else if f % 2 = 0 then f else f + 1

/-- `round(x, 2)`: two-decimal rounding. -/
def py_round2 {α : Type} [LinearOrderedField α] [FloorRing α] (x : α) : α :=
  (py_round_half_even (x * 100) : ℤ) / 100

/-- `PredictionResponse` (main.py 259-267).  The wall-clock fields
`prediction_time_ms` and `timestamp` are outside the functional model and
omitted; note the type carries no invalid-confidence or fallback marker. -/
structure PredictionResponse where
  risk_score : ℚ
  risk_level : String
  confidence : ℝ
  model_predictions : List (String × ℚ)
  ensemble_prediction : ℚ

/-- The pure response computation of `predict` (main.py 382-420) from the
per-model percentage scores and the ensemble weights: ensemble combination,
confidence from inter-model spread (85.0 when fewer than two models
contributed), risk level from the unrounded score, two-decimal rounding of the
numeric response fields. -/
noncomputable def predict_response (model_predictions weights : List (String × ℚ)) :
    PredictionResponse :=
  let risk_score := risk_score_of model_predictions weights
  let confidence : ℝ :=
    if 1 < model_predictions.length then confidence_of (model_predictions.map Prod.snd)
    else 85
  { risk_score := py_round2 risk_score
    risk_level := get_risk_level risk_score
    confidence := py_round2 confidence
    model_predictions := model_predictions
    ensemble_prediction := py_round2 risk_score }

/-! ## Prediction history store (main.py 36-150, 422-457, 513-528) -/

/-- The payload persisted for one prediction (columns of the `predictions`
table, main.py 50-69, minus the autoincrement id and user id). -/
structure RecordPayload where
  created_at : String
  risk_level : String
  risk_score : ℚ
  confidence : ℚ
  prediction : String
  explanation : String
  recommendations : List String
  patient_age : ℚ
  patient_gender : String
  resting_bp : ℚ
  cholesterol : ℚ
  blood_sugar_fasting : Bool
  max_heart_rate : ℚ
  exercise_induced_angina : Bool
  oldpeak : ℚ
  st_slope : String
deriving Repr, DecidableEq

/-- One history record as the endpoints see it: a string id plus the payload. -/
structure HistRecord where
  id : String
  payload : RecordPayload
deriving Repr, DecidableEq

/-- One row of the durable `predictions` table: autoincrement rowid, user id,
payload. -/
structure DbRow where
  rowid : Nat
  user_id : String
  payload : RecordPayload
deriving Repr, DecidableEq

/-- The in-memory `prediction_history` dict (main.py 37), as an association
list with the leftmost binding authoritative. -/
def HistMem := List (String × List HistRecord)

/-- Reconstructed identifier of a fetched row (main.py 130). -/
def rec_id_of_rowid (pid : Nat) : String := "pred-" ++ toString pid

/-- Insert into a list already sorted by descending rowid. -/
def insert_rowid_desc (r : DbRow) : List DbRow → List DbRow
  | [] => [r]
  | x :: xs => if x.rowid ≤ r.rowid then r :: x :: xs else x :: insert_rowid_desc r xs

/-- Sort rows by descending rowid (`ORDER BY id DESC`, main.py 118). -/
def sort_rowid_desc : List DbRow → List DbRow
  | [] => []
  | x :: xs => insert_rowid_desc x (sort_rowid_desc xs)

/-- `fetch_history_from_db` (main.py 112-150): rows of the given user, ordered
by descending rowid, limited, each reconstructed with id `pred-<rowid>`. -/
def fetch_history_from_db (db : List DbRow) (user_id : String) (limit : Nat) :
    List HistRecord :=
  ((sort_rowid_desc (db.filter (fun r => r.user_id == user_id))).take limit).map
    (fun r => { id := rec_id_of_rowid r.rowid, payload := r.payload })

/-- The result shape of the `/history/{user_id}` endpoint (main.py 523-528). -/
structure HistoryFetchResult where
  user_id : String
  count : Nat
  predictions : List HistRecord
  limit : Nat
deriving Repr, DecidableEq

/-- `get_prediction_history` (main.py 513-528), transcribed exactly: note that
`combined_ids` is built from `db_history` itself, so the filter over
`db_history` keeps nothing. -/
def get_prediction_history (mem : HistMem) (db : List DbRow)
    (user_id : String) (limit : Nat) : HistoryFetchResult :=
  let db_history := fetch_history_from_db db user_id limit
  let mem_history := (mem.lookup user_id).getD []
  let combined_ids := db_history.map (fun h => h.id)
  let combined := mem_history ++ db_history.filter (fun h => decide (h.id ∉ combined_ids))
  let combined2 := combined.take limit
  { user_id := user_id, count := combined2.length, predictions := combined2, limit := limit }

/-- Next autoincrement rowid of the durable table. -/
def next_rowid (db : List DbRow) : Nat := (db.map (fun r => r.rowid)).foldr max 0 + 1

/-- `save_prediction_to_db` (main.py 76-110) as its observable effect: append
one row for the user with the next autoincrement id. -/
def save_prediction_to_db (db : List DbRow) (user_id : String)
    (payload : RecordPayload) : List DbRow :=
  db ++ [⟨next_rowid db, user_id, payload⟩]

/-- Update of the in-memory dict binding (main.py 445). -/
def mem_set (mem : HistMem) (user_id : String) (l : List HistRecord) : HistMem :=
  (user_id, l) :: mem

/-- Whether the durable INSERT raised an exception. -/
inductive DbWrite where
  | ok
  | failure
deriving Repr, DecidableEq

/-- The outcome of one `predict` request: the two history views and either the
response or the detail string of the `HTTPException(500, ...)` raised by the
blanket handler (main.py 455-457). -/
structure PredictOutcome where
  mem : HistMem
  db : List DbRow
  result : Except String PredictionResponse

/-- The storage phase of `predict` (main.py 422-457): with a user id present,
the record is inserted at the head of the in-memory cache (truncated to 500)
and then written durably; an exception from the durable write propagates to
the blanket `except` handler, which turns the whole request into a 500 error —
the already-performed cache insert is not rolled back, and no warning signal
distinct from request failure exists. -/
def store_phase (write : DbWrite) (mem : HistMem) (db : List DbRow)
    (user_id : Option String) (resp : PredictionResponse)
    (rec_id : String) (payload : RecordPayload) : PredictOutcome :=
  match user_id with
  | none => ⟨mem, db, .ok resp⟩
  | some uid =>
    let history := (mem.lookup uid).getD []
    let mem2 := mem_set mem uid ((⟨rec_id, payload⟩ :: history).take 500)
    match write with
    | .ok => ⟨mem2, save_prediction_to_db db uid payload, .ok resp⟩
    | .failure => ⟨mem2, db, .error "Prediction error"⟩

/-! ## The batch endpoint (main.py 460-467) -/

/-- Number of required parameters of the `predict` handler
(`patient, request`, main.py 355 — neither has a default). -/
def predict_required_param_count : Nat := 2

/-- Number of arguments `batch_predict` passes in `await predict(patient)`
(main.py 465). -/
def batch_predict_arg_count : Nat := 1

/-- Outcome of a Python call: a value, or the `TypeError` Python raises when a
function is called with fewer arguments than its required parameters. -/
inductive PyCallResult (α : Type) where
  | ok (val : α)
  | typeError
deriving Repr, DecidableEq

/-- The call `await predict(patient)` made inside `batch_predict`, for an
abstract per-patient computation (the model scoring is an external artifact):
Python checks the arity before the body runs. -/
def call_predict_from_batch (compute : PatientData → PredictionResponse)
    (p : PatientData) : PyCallResult PredictionResponse :=
  if predict_required_param_count ≤ batch_predict_arg_count then .ok (compute p)
  else .typeError

/-- The loop of `batch_predict` (main.py 463-466): sequential calls, the first
exception aborting the request. -/
def batch_predict_loop (compute : PatientData → PredictionResponse) :
    List PatientData → PyCallResult (List PredictionResponse)
  | [] => .ok []
  | p :: ps =>
    match call_predict_from_batch compute p with
    | .typeError => .typeError
    | .ok r =>
      match batch_predict_loop compute ps with
      | .typeError => .typeError
      | .ok rs => .ok (r :: rs)

/-- `batch_predict` (main.py 460-467): the predictions list and its count. -/
def batch_predict (compute : PatientData → PredictionResponse)
    (patients : List PatientData) : PyCallResult (List PredictionResponse × Nat) :=
  match batch_predict_loop compute patients with
  | .typeError => .typeError
  | .ok results => .ok (results, results.length)

/-! ## Concrete inputs used by counterexamples and witnesses -/

/-- The example patient of main.py 241-255 (spec §8 end-to-end input). -/
def example_patient : PatientData :=
  { age := 63, sex := 1, cp := 3, trestbps := 145, chol := 233, fbs := 1,
    restecg := 0, thalach := 150, exang := 0, oldpeak := 23 / 10, slope := 0,
    ca := 0, thal := 1 }

/-- An in-range patient sitting on the age-bucket boundary age = 40. -/
def patient_age40 : PatientData :=
  { age := 40, sex := 1, cp := 0, trestbps := 120, chol := 200, fbs := 0,
    restecg := 0, thalach := 150, exang := 0, oldpeak := 0, slope := 0,
    ca := 0, thal := 0 }

/-- An in-range patient whose heart-rate reserve ratio exceeds 1. -/
def patient_high_hr : PatientData :=
  { age := 120, sex := 0, cp := 0, trestbps := 120, chol := 200, fbs := 0,
    restecg := 0, thalach := 250, exang := 0, oldpeak := 0, slope := 0,
    ca := 0, thal := 0 }

/-! ## Claims -/

/-- **C1.** The claim says the serve-time transform (`preprocess_input`) and
the train-time transform (`engineer_features`) compute the same 6 engineered
features on the same raw values, in particular agreeing on the age bucket at
the boundary ages 40, 50, 60 and on the clamping of hr_reserve.  The code
violates this: `pd.cut` with bins `[0,40,50,60,100]` uses right-closed
intervals, so training places age 40 in bucket 0 while serving places it in
bucket 1 (likewise 50 and 60 go to 1 vs 2 and 2 vs 3); and training clamps
hr_reserve to `[0,1]` while serving does not.  This theorem evaluates both
transforms at the in-range failing inputs. -/
theorem train_serve_engineered_divergence :
    patient_age40.valid ∧ patient_high_hr.valid ∧
    (serve_engineered patient_age40).map some ≠ train_engineered patient_age40 ∧
    serve_age_group 40 = 1 ∧ train_age_group 40 = some 0 ∧
    serve_age_group 50 = 2 ∧ train_age_group 50 = some 1 ∧
    serve_age_group 60 = 3 ∧ train_age_group 60 = some 2 ∧
    serve_hr_reserve 120 250 = 5 / 2 ∧ train_hr_reserve 120 250 = 1 ∧
    (serve_engineered patient_high_hr).map some ≠ train_engineered patient_high_hr := by
  refine ⟨by decide, by decide, ?_, ?_, ?_, ?_, ?_, ?_, ?_, ?_, ?_, ?_⟩ <;>
    norm_num [patient_age40, patient_high_hr, serve_engineered, train_engineered,
      serve_age_group, train_age_group, serve_hr_reserve, train_hr_reserve,
      chol_risk, bp_risk, composite_risk]

/-- **C8.** `get_risk_level` partitions `[0,100]` into the four contiguous
non-overlapping brackets low `[0,30)`, medium `[30,50)`, high `[50,70)`,
very-high `[70,100]`, the boundary values 30, 50, 70 falling strictly in the
upper bracket. -/
theorem get_risk_level_partition (s : ℚ) (h0 : 0 ≤ s) (h1 : s ≤ 100) :
    (get_risk_level s = "low" ↔ 0 ≤ s ∧ s < 30) ∧
    (get_risk_level s = "medium" ↔ 30 ≤ s ∧ s < 50) ∧
    (get_risk_level s = "high" ↔ 50 ≤ s ∧ s < 70) ∧
    (get_risk_level s = "very-high" ↔ 70 ≤ s ∧ s ≤ 100) := by
  unfold get_risk_level
  split_ifs with ha hb hc <;>
    refine ⟨?_, ?_, ?_, ?_⟩ <;> simp <;>
    first
      | exact ⟨by linarith, by linarith⟩
      | (intro h; linarith)

/-- Witness for C8 at the boundary score 30: it is classified medium, not low. -/
theorem get_risk_level_partition_witness :
    (get_risk_level 30 = "low" ↔ (0 : ℚ) ≤ 30 ∧ (30 : ℚ) < 30) ∧
    (get_risk_level 30 = "medium" ↔ (30 : ℚ) ≤ 30 ∧ (30 : ℚ) < 50) ∧
    (get_risk_level 30 = "high" ↔ (50 : ℚ) ≤ 30 ∧ (30 : ℚ) < 70) ∧
    (get_risk_level 30 = "very-high" ↔ (70 : ℚ) ≤ 30 ∧ (30 : ℚ) ≤ 100) :=
  get_risk_level_partition 30 (by norm_num) (by norm_num)

/-- A scaler with a visible effect, for the C7 counterexample: zero means,
scale 2 on every one of the 19 features. -/
def demo_scaler : FittedScaler :=
  { mean := List.replicate 19 0, scale := List.replicate 19 2 }

/-- **C7** counterexample.  The claim says a missing preprocessor makes the
prediction fail with a ConfigurationError and that the transform does not
silently return unscaled features.  In the code `preprocess_input` guards
scaling with `if preprocessor:` and otherwise returns the unscaled vector with
no error: at the example patient it returns exactly the raw-plus-engineered
unscaled features, which differ from any scaled output. -/
theorem missing_preprocessor_counterexample :
    preprocess_input none example_patient =
      raw_features example_patient ++ serve_engineered example_patient ∧
    preprocess_input none example_patient ≠
      preprocess_input (some demo_scaler) example_patient := by
  refine ⟨rfl, ?_⟩
  norm_num [preprocess_input, example_patient, raw_features, serve_engineered,
    demo_scaler, FittedScaler.transform, serve_age_group, serve_hr_reserve,
    chol_risk, bp_risk, composite_risk, List.replicate, List.zip]

/-- **C7** amended: when the fitted normalization parameters are absent,
`preprocess_input` silently skips scaling and returns the unscaled 19-feature
vector; no error of any kind is raised. -/
theorem missing_preprocessor_skips_scaling (p : PatientData) :
    preprocess_input none p = raw_features p ++ serve_engineered p := by
  rfl

/-- **C2.** For a non-empty score set with every per-model score in `[0,100]`
and a positive renormalizing weight total over the present models, the code's
combination is exactly the weighted average of the present models'
probabilities, renormalized over the present models' weights (with default
weight 0.33 for a model missing from the weights map), and
`risk_score = 100 · riskProbability`.  All non-empty subsets of the model set
are instances of the quantified `scores`. -/
theorem ensemble_renormalization (scores weights : List (String × ℚ))
    (hne : scores ≠ [])
    (hrange : ∀ mp ∈ scores, 0 ≤ mp.2 ∧ mp.2 ≤ 100)
    (hpos : 0 < (scores.map (fun mp => weight_get weights mp.1)).sum) :
    ensemble_pred scores weights =
      (scores.map (fun mp => mp.2 / 100 * weight_get weights mp.1)).sum /
        (scores.map (fun mp => weight_get weights mp.1)).sum ∧
    risk_score_of scores weights = 100 * ensemble_pred scores weights := by
  constructor
  · match scores with
    | [] => exact absurd rfl hne
    | mp :: rest =>
      show ensemble_pred (mp :: rest) weights = _
      unfold ensemble_pred
      simp only
      rw [if_pos hpos]
  · unfold risk_score_of
    ring

/-- Witness for C2: the subset consisting of the xgboost and neural-network
scores 80 and 60 under the default weights 0.40 and 0.25:
the combined probability is (0.8·0.4 + 0.6·0.25)/0.65 = 47/65. -/
theorem ensemble_renormalization_witness :
    ensemble_pred [("xgboost", 80), ("neural_network", 60)] default_weights =
      (([("xgboost", (80 : ℚ)), ("neural_network", 60)]).map
          (fun mp => mp.2 / 100 * weight_get default_weights mp.1)).sum /
        (([("xgboost", (80 : ℚ)), ("neural_network", 60)]).map
          (fun mp => weight_get default_weights mp.1)).sum ∧
    risk_score_of [("xgboost", 80), ("neural_network", 60)] default_weights =
      100 * ensemble_pred [("xgboost", 80), ("neural_network", 60)] default_weights :=
  ensemble_renormalization [("xgboost", 80), ("neural_network", 60)] default_weights
    (by simp)
    (by intro mp hmp; fin_cases hmp <;> norm_num)
    (by
      have h1 : weight_get default_weights "xgboost" = 2 / 5 := rfl
      have h2 : weight_get default_weights "neural_network" = 1 / 4 := rfl
      simp [h1, h2]
      norm_num)

/-- **C9.** Confidence never increases with inter-model spread: for two score
collections of at least two scores each, a smaller-or-equal standard deviation
gives a greater-or-equal confidence `clamp(100 − stddev, 0, 100)`. -/
theorem confidence_monotone (xs ys : List ℚ) (hx : 2 ≤ xs.length)
    (hy : 2 ≤ ys.length) (h : np_std xs ≤ np_std ys) :
    confidence_of ys ≤ confidence_of xs := by
  unfold confidence_of
  exact max_le_max le_rfl (min_le_min le_rfl (by linarith))

/-- Witness for C9: the agreeing scores `[50, 50]` (stddev 0) receive at least
the confidence of the spread scores `[40, 60]` (stddev 10). -/
theorem confidence_monotone_witness :
    confidence_of [(40 : ℚ), 60] ≤ confidence_of [(50 : ℚ), 50] :=
  confidence_monotone [(50 : ℚ), 50] [(40 : ℚ), 60] (by decide) (by decide)
    (by
      unfold np_std
      apply Real.sqrt_le_sqrt
      have h : np_var [(50 : ℚ), 50] ≤ np_var [(40 : ℚ), 60] := by
        norm_num [np_var, np_mean]
      exact_mod_cast h)

/-- **C10.** In every response of the prediction computation, the
`ensemble_prediction` field equals the `risk_score` field: both are the
combined probability scaled to `[0,100]` and rounded to two decimals, not the
raw `[0,1]` probability. -/
theorem ensemble_prediction_eq_risk_score (scores weights : List (String × ℚ)) :
    (predict_response scores weights).ensemble_prediction =
      (predict_response scores weights).risk_score ∧
    (predict_response scores weights).risk_score =
      py_round2 (ensemble_pred scores weights * 100) := by
  exact ⟨rfl, rfl⟩

/-- Rounding an integer value to two decimals returns it unchanged. -/
theorem py_round_half_even_intCast {α : Type} [LinearOrderedField α] [FloorRing α]
    (n : ℤ) : py_round_half_even ((n : α)) = n := by
  simp only [py_round_half_even, Int.floor_intCast, sub_self]
  norm_num

/-- `round(n, 2) = n` for an integer-valued argument. -/
theorem py_round2_intCast {α : Type} [LinearOrderedField α] [FloorRing α]
    (n : ℤ) : py_round2 ((n : α)) = n := by
  unfold py_round2
  have h : ((n : α)) * 100 = (((n * 100 : ℤ)) : α) := by push_cast; ring
  rw [h, py_round_half_even_intCast]
  push_cast
  field_simp

/-- With no model scores, the combined risk score is the neutral 50. -/
theorem risk_score_of_nil (weights : List (String × ℚ)) :
    risk_score_of [] weights = 50 := by
  unfold risk_score_of ensemble_pred
  norm_num

/-- **C6** counterexample.  The claim says the zero-model response is flagged
with an invalid/unavailable confidence rather than an ordinary specific
confidence number.  In the code the zero-model path takes the same
`confidence = 85.0` branch as a genuine single-model response and
`PredictionResponse` carries no marker field, so the fallback response is
indistinguishable from an ordinary confident one: its confidence is the
ordinary number 85, equal to that of a real single-model prediction. -/
theorem zero_model_confidence_counterexample :
    (predict_response [] default_weights).confidence = 85 ∧
    (predict_response [] default_weights).confidence =
      (predict_response [("xgboost", 70)] default_weights).confidence := by
  have h85 : py_round2 (85 : ℝ) = 85 := by
    have h : (85 : ℝ) = ((85 : ℤ) : ℝ) := by norm_num
    rw [h, py_round2_intCast]
  constructor
  · show py_round2 (if 1 < ([] : List (String × ℚ)).length then
        confidence_of (([] : List (String × ℚ)).map Prod.snd) else (85 : ℝ)) = 85
    simpa using h85
  · show py_round2 (if 1 < ([] : List (String × ℚ)).length then
        confidence_of (([] : List (String × ℚ)).map Prod.snd) else (85 : ℝ)) =
      py_round2 (if 1 < [("xgboost", (70 : ℚ))].length then
        confidence_of ([("xgboost", (70 : ℚ))].map Prod.snd) else (85 : ℝ))
    simp

/-- **C6** amended: with zero models registered the prediction does not crash:
it returns `risk_score = 50`, classified "high", with the ordinary fixed
confidence 85.0 — the same constant as the single-model path; no
invalid-confidence or fallback marker exists in the response type. -/
theorem zero_model_fallback (weights : List (String × ℚ)) :
    (predict_response [] weights).risk_score = 50 ∧
    (predict_response [] weights).risk_level = "high" ∧
    (predict_response [] weights).confidence = 85 := by
  have hrs : risk_score_of [] weights = 50 := risk_score_of_nil weights
  refine ⟨?_, ?_, ?_⟩
  · show py_round2 (risk_score_of [] weights) = 50
    rw [hrs]
    have h : (50 : ℚ) = ((50 : ℤ) : ℚ) := by norm_num
    rw [h, py_round2_intCast]
  · show get_risk_level (risk_score_of [] weights) = "high"
    rw [hrs]
    rfl
  · show py_round2 (if 1 < ([] : List (String × ℚ)).length then
        confidence_of (([] : List (String × ℚ)).map Prod.snd) else (85 : ℝ)) = 85
    have hif : (if 1 < ([] : List (String × ℚ)).length then
        confidence_of (([] : List (String × ℚ)).map Prod.snd) else (85 : ℝ)) = 85 := by
      norm_num
    have h : (85 : ℝ) = ((85 : ℤ) : ℝ) := by norm_num
    rw [hif, h, py_round2_intCast]

/-! ## History claims -/

/-- A concrete persisted payload, as `predict` builds it (main.py 425-444). -/
def demo_payload : RecordPayload :=
  { created_at := "2026-01-01T00:00:00", risk_level := "high", risk_score := 66,
    confidence := 80, prediction := "Risk",
    explanation := "Ensemble prediction based on loaded models.",
    recommendations := ["Consult cardiologist"], patient_age := 63,
    patient_gender := "male", resting_bp := 145, cholesterol := 233,
    blood_sugar_fasting := true, max_heart_rate := 150,
    exercise_induced_angina := false, oldpeak := 23 / 10, st_slope := "flat" }

/-- The filter of `get_prediction_history` tests db records against the set of
ids drawn from the very same db records, so it keeps nothing. -/
theorem filter_self_ids_nil (l : List HistRecord) :
    l.filter (fun h => decide (h.id ∉ l.map (fun h2 => h2.id))) = [] := by
  rw [List.filter_eq_nil_iff]
  intro a ha
  simp only [decide_eq_true_eq, not_not]
  exact List.mem_map_of_mem _ ha

/-- **C3.** The claim says the history fetch merges the cache with the durable
log, deduplicated by id with cache entries winning, so a record present only
in the durable log is still returned.  The code computes `combined_ids` from
`db_history` itself and then filters `db_history` by those very ids, so every
durable-log record is dropped: the endpoint returns only the in-memory cache,
and after a restart (empty cache) a persisted record is not returned even
though `fetch_history_from_db` finds it. -/
theorem get_prediction_history_ignores_db :
    (∀ (mem : HistMem) (db : List DbRow) (uid : String) (limit : Nat),
      (get_prediction_history mem db uid limit).predictions =
        ((mem.lookup uid).getD []).take limit) ∧
    (get_prediction_history [] [⟨1, "itest-user-123", demo_payload⟩]
        "itest-user-123" 10).predictions = [] ∧
    fetch_history_from_db [⟨1, "itest-user-123", demo_payload⟩]
        "itest-user-123" 10 = [⟨"pred-1", demo_payload⟩] := by
  have hmain : ∀ (mem : HistMem) (db : List DbRow) (uid : String) (limit : Nat),
      (get_prediction_history mem db uid limit).predictions =
        ((mem.lookup uid).getD []).take limit := by
    intro mem db uid limit
    simp only [get_prediction_history]
    rw [filter_self_ids_nil]
    simp
  refine ⟨hmain, ?_, ?_⟩
  · rw [hmain]
    rfl
  · rfl

/-- **C5** counterexample.  The claim says that when the durable write fails,
the prediction response is still returned to the caller.  In the code the
exception from `save_prediction_to_db` reaches the blanket handler, which
fails the request with a 500: at a concrete request carrying user id "u1",
the result is not the computed response — although the in-memory cache update
did take effect. -/
theorem persistence_failure_counterexample :
    (store_phase .failure [] [] (some "u1") (predict_response [] default_weights)
        "pred-1" demo_payload).result ≠
      Except.ok (predict_response [] default_weights) ∧
    (store_phase .failure [] [] (some "u1") (predict_response [] default_weights)
        "pred-1" demo_payload).mem =
      [("u1", [⟨"pred-1", demo_payload⟩])] := by
  exact ⟨fun h => Except.noConfusion h, rfl⟩

/-- **C5** amended: when the durable write of a `PredictionRecord` fails
during a `predict` call with a subject identifier, the in-memory cache update
still takes effect (the new record sits at the head of the subject's cached
history) and the durable log is unchanged, but the request fails with the
generic 500 error instead of returning the prediction response; no warning
signal distinct from request failure is produced. -/
theorem persistence_failure_behavior (mem : HistMem) (db : List DbRow)
    (uid : String) (resp : PredictionResponse) (rid : String)
    (payload : RecordPayload) :
    ((store_phase .failure mem db (some uid) resp rid payload).mem.lookup uid) =
      some ((⟨rid, payload⟩ :: (mem.lookup uid).getD []).take 500) ∧
    (store_phase .failure mem db (some uid) resp rid payload).db = db ∧
    (store_phase .failure mem db (some uid) resp rid payload).result =
      .error "Prediction error" := by
  refine ⟨?_, rfl, rfl⟩
  show ((uid, ((⟨rid, payload⟩ : HistRecord) :: (mem.lookup uid).getD []).take 500)
      :: mem).lookup uid = _
  simp [List.lookup]

/-- **C4.** The claim says `batch_predict` returns, without error, the
element-wise results of independent `predict` calls.  In the code
`batch_predict` invokes `predict(patient)` with a single argument although
`predict` declares two required parameters (`patient, request`), so Python
raises TypeError before any prediction runs: every non-empty batch fails
(surfaced as a 500), and only the empty batch returns a result. -/
theorem batch_predict_type_error :
    (∀ (compute : PatientData → PredictionResponse) (p : PatientData)
        (ps : List PatientData), batch_predict compute (p :: ps) = .typeError) ∧
    (∀ compute : PatientData → PredictionResponse,
        batch_predict compute [] = .ok ([], 0)) := by
  exact ⟨fun compute p ps => rfl, fun compute => rfl⟩

end CardiacInsight
